import Mathlib

/-!
Shallow embedding of the SharePointManager remote-filesystem client
(sharepointmanager/sharepoint.py) and proofs of the specified properties.

The remote service is modelled by an oracle structure (`Remote`): each
endpoint is a function from the request URL to either an HTTP error
status or a decoded response.  Operations return, next to their
`Except`-wrapped result, the list of network requests they issued, so
that properties about which requests are (not) issued can be stated.
The remote folder hierarchy used by the recursive walks is modelled as
a finite tree (`RTree`); each children listing the walk would fetch is
the embedded child list of the corresponding node, and the walk still
records the children request it would issue for every folder it enters.
-/

deriving instance DecidableEq for Except

namespace SPM

/-- Python truthiness of an optional string field (both `None` and the
empty string are falsy, as in `if not self.drive_id`). -/
def truthy (o : Option String) : Bool :=
  !(o.getD "").isEmpty

/-- Python f-string interpolation of a possibly-`None` field: `None`
prints as the string "None". -/
def optStr : Option String → String
  | none => "None"
  | some s => s

/-- Python `s.startswith(p)` (case-sensitive, over the character data). -/
def pyStartsWith (s p : String) : Bool :=
  p.data.isPrefixOf s.data

/-- Python `s.endswith(p)` (case-sensitive, over the character data). -/
def pyEndsWith (s p : String) : Bool :=
  p.data.isSuffixOf s.data

/-- Grouping step of Python `s.split(sep)` for a one-character
separator, over the character data. -/
def splitChar (sep : Char) : List Char → List (List Char)
  | [] => [[]]
  | c :: cs =>
    let r := splitChar sep cs
    if c = sep then [] :: r
    else
      match r with
      | [] => [[c]]
      | g :: gs => (c :: g) :: gs

/-- Python `s.split(sep)` for a one-character separator (the source
only ever splits on ":" and "/"). -/
def pySplit (sep : Char) (s : String) : List String :=
  (splitChar sep s.data).map String.mk

/-- UTF-8 byte sequence of a character (used by percent-encoding). -/
def utf8Bytes (c : Char) : List Nat :=
  let n := c.toNat
  if n < 128 then [n]
  else if n < 2048 then [192 + n / 64, 128 + n % 64]
  else if n < 65536 then [224 + n / 4096, 128 + n / 64 % 64, 128 + n % 64]
  else [240 + n / 262144, 128 + n / 4096 % 64, 128 + n / 64 % 64, 128 + n % 64]

/-- Uppercase hexadecimal digit. -/
def hexDigit (n : Nat) : Char :=
  if n < 10 then Char.ofNat (48 + n) else Char.ofNat (55 + n)

/-- Percent-encoding of one byte, uppercase hex as Python produces. -/
def quoteByte (b : Nat) : String :=
  String.mk [Char.ofNat 37, hexDigit (b / 16 % 16), hexDigit (b % 16)]

/-- Characters `urllib.parse.quote` keeps verbatim with the default
`safe` set: ASCII alphanumerics, `_ . - ~` and the path separator `/`. -/
def isQuoteSafe (c : Char) : Bool :=
  c.isAlphanum || c = Char.ofNat 95 || c = Char.ofNat 46 ||
    c = Char.ofNat 45 || c = Char.ofNat 126 || c = Char.ofNat 47

/-- `urllib.parse.quote` with its default `safe` parameter, as used by
the source to encode logical paths into URL path segments. -/
def quote (s : String) : String :=
  String.join (s.data.map fun c =>
    if isQuoteSafe c then String.mk [c]
    else String.join ((utf8Bytes c).map quoteByte))

/-- The mutable session state of `SharePointManager` that the item
operations consult: bearer token, site id and drive id, each unset
(`None`) until the corresponding resolution step ran. -/
structure SPState where
  access_token : Option String := none
  site_id : Option String := none
  drive_id : Option String := none
deriving DecidableEq

/-- The `ItemInfo` dataclass: file or folder information. -/
structure ItemInfo where
  name : String
  path : String
  size : Nat
  modified : String
  id : String
  webUrl : String
deriving DecidableEq

/-- One raw item record as decoded from a Graph API JSON response.
`hasFile` / `hasFolder` model the presence of the "file" / "folder"
facet keys; `downloadUrl` models the optional download-URL key; absent
string keys are modelled by the defaults `.get` would produce. -/
structure RawItem where
  name : String := ""
  hasFile : Bool := false
  hasFolder : Bool := false
  size : Nat := 0
  modified : String := ""
  id : String := ""
  webUrl : String := ""
  parentPath : String := ""
  downloadUrl : Option String := none
deriving DecidableEq

/-- One entry of the drives listing (`response.json()["value"]`). -/
structure DriveRec where
  name : String
  id : String
deriving DecidableEq

/-- The remote folder hierarchy, materialised as a finite tree: a node
carries the raw record a children listing would return for it together
with its own children (meaningful when the record is folder-marked). -/
inductive RTree where
  | node (item : RawItem) (children : List RTree)

/-- The raw record a listing returns for a tree node. -/
def RTree.item : RTree → RawItem
  | .node it _ => it

/-- A network request issued against the remote API. -/
inductive Req where
  | get (url : String)
  | put (url : String) (content : List Nat)
  | patch (url : String) (parentId : String)
  | delete (url : String)
deriving DecidableEq

/-- A local filesystem effect performed by a download. -/
inductive FsEvent where
  | mkdir (path : String)
  | write (path : String) (content : List Nat)
deriving DecidableEq

/-- Result of `download_item`: an in-memory buffer (`BytesIO`) or the
local path the content was saved under. -/
inductive DownloadResult where
  | memory (content : List Nat)
  | savedTo (path : String)
deriving DecidableEq

/-- The distinct failures the source raises, one constructor per raise
site relevant to the modelled operations. -/
inductive Err where
  | driveNotSet
  | siteNotSet
  | httpError (status : Nat)
  | itemNotFound (path : String)
  | getItemIdError (status : Nat)
  | retrieveIdError (path : String)
  | unknownItemType (path : String)
  | keyError (key : String)
  | noDrives (name : String)
deriving DecidableEq

/-- The remote service as an oracle: every endpoint maps the request
URL (and body, where one is sent) to an HTTP failure status or a
decoded response.  `getTree` answers a children request with the
subtree rooted at the addressed folder, from which both the flat
listing and the recursive walks are driven. -/
structure Remote where
  getItem : String → Except Nat RawItem
  getTree : String → Except Nat (List RTree)
  fetch : String → Except Nat (List Nat)
  getDrives : String → Except Nat (List DriveRec)
  deleteAt : String → Except Nat Unit
  patchItem : String → String → Except Nat Unit
  putContent : String → List Nat → Except Nat RawItem

/-- `GRAPH_API_BASE` class constant. -/
def GRAPH_API_BASE : String := "https://graph.microsoft.com/v1.0"

/-- `_get_drives_url`. -/
def _get_drives_url (st : SPState) : String :=
  GRAPH_API_BASE ++ "/sites/" ++ optStr st.site_id ++ "/drives"

/-- `_get_drive_root_url`. -/
def _get_drive_root_url (st : SPState) : String :=
  GRAPH_API_BASE ++ "/sites/" ++ optStr st.site_id ++ "/drives/" ++
    optStr st.drive_id ++ "/root"

/-- `_get_drive_item_url`: the item URL for an already-encoded path. -/
def _get_drive_item_url (st : SPState) (encoded_path : String) : String :=
  _get_drive_root_url st ++ ":/" ++ encoded_path

/-- `_get_drive_item_content_url`. -/
def _get_drive_item_content_url (st : SPState) (encoded_path : String) : String :=
  _get_drive_item_url st encoded_path ++ ":/content"

/-- `_get_drive_children_url`: children of a folder path, or of the
drive root when the path is empty. -/
def _get_drive_children_url (st : SPState) (folder_path : String) : String :=
  if folder_path = "" then _get_drive_root_url st ++ "/children"
  else _get_drive_item_url st (quote folder_path) ++ ":/children"

/-- `_create_item_info_from_api_response`: builds an `ItemInfo` from a
raw record; the logical path is the last `:`-separated piece of the
parent-reference path joined with the leaf name. -/
def _create_item_info_from_api_response (it : RawItem) : ItemInfo :=
  let path :=
    if it.parentPath = "" then it.name
    else (pySplit (Char.ofNat 58) it.parentPath).getLastD "" ++ "/" ++ it.name
  { name := it.name, path := path, size := it.size,
    modified := it.modified, id := it.id, webUrl := it.webUrl }

/-- Suffix normalization shared by all four search operations: a
non-empty suffix that does not already start with a dot gets a dot
prepended (`if suffix and not suffix.startswith(.): suffix = . + suffix`). -/
def normalizeSuffix (suffix : String) : String :=
  if suffix = "" then suffix
  else if pyStartsWith suffix "." then suffix
  else "." ++ suffix

/-- The path-joining f-string used by every recursive walk:
`f"{current_path}/{name}" if current_path else name`. -/
def childJoin (current_path name : String) : String :=
  if current_path = "" then name else current_path ++ "/" ++ name

/-- `os.path.join` for the two-argument POSIX cases the source hits. -/
def joinPath (a b : String) : String :=
  if pyStartsWith b "/" then b
  else if a = "" then b
  else if pyEndsWith a "/" then a ++ b
  else a ++ "/" ++ b

/-- The filtering loop of `search_files_by_suffix`: keep file-marked
records whose name ends with the (already normalized) suffix. -/
def filterFiles (suffix : String) : List RawItem → List ItemInfo
  | [] => []
  | it :: rest =>
    if it.hasFile && pyEndsWith it.name suffix then
      _create_item_info_from_api_response it :: filterFiles suffix rest
    else filterFiles suffix rest

/-- The filtering loop of `search_folders_by_suffix`: keep folder-marked
records whose name ends with the (already normalized) suffix. -/
def filterFolders (suffix : String) : List RawItem → List ItemInfo
  | [] => []
  | it :: rest =>
    if it.hasFolder && pyEndsWith it.name suffix then
      _create_item_info_from_api_response it :: filterFolders suffix rest
    else filterFolders suffix rest

/-- The inner closure `search_folder_for_files` of
`search_files_by_suffix_recursive`, walking the already-fetched child
trees of the current folder: a file-marked child is kept when its name
matches; a folder-marked child triggers a further children request and
a recursive walk of its own children; other children are skipped. -/
def searchFilesWalk (st : SPState) (suffix : String) :
    List RTree → String → List ItemInfo × List Req
  | [], _ => ([], [])
  | RTree.node it cs :: rest, current_path =>
    if it.hasFile then
      let here :=
        if pyEndsWith it.name suffix then [_create_item_info_from_api_response it] else []
      let rst := searchFilesWalk st suffix rest current_path
      (here ++ rst.1, rst.2)
    else if it.hasFolder then
      let new_path := childJoin current_path it.name
      let sub := searchFilesWalk st suffix cs new_path
      let rst := searchFilesWalk st suffix rest current_path
      (sub.1 ++ rst.1, Req.get (_get_drive_children_url st new_path) :: (sub.2 ++ rst.2))
    else searchFilesWalk st suffix rest current_path

/-- The inner closure `search_folder_for_folders` of
`search_folders_by_suffix_recursive`: a folder-marked child is kept
when its name matches and is always descended into regardless of the
match; non-folder children are skipped. -/
def searchFoldersWalk (st : SPState) (suffix : String) :
    List RTree → String → List ItemInfo × List Req
  | [], _ => ([], [])
  | RTree.node it cs :: rest, current_path =>
    if it.hasFolder then
      let here :=
        if pyEndsWith it.name suffix then [_create_item_info_from_api_response it] else []
      let new_path := childJoin current_path it.name
      let sub := searchFoldersWalk st suffix cs new_path
      let rst := searchFoldersWalk st suffix rest current_path
      (here ++ sub.1 ++ rst.1,
       Req.get (_get_drive_children_url st new_path) :: (sub.2 ++ rst.2))
    else searchFoldersWalk st suffix rest current_path

/-- `search_files_by_suffix`: drive precondition, suffix normalization,
one children request, then the file filter over the listing. -/
def search_files_by_suffix (st : SPState) (r : Remote)
    (suffix folder_path : String) : Except Err (List ItemInfo) × List Req :=
  if !truthy st.drive_id then (.error .driveNotSet, [])
  else
    let suffix := normalizeSuffix suffix
    let url := _get_drive_children_url st folder_path
    match r.getTree url with
    | .error s => (.error (.httpError s), [Req.get url])
    | .ok ts => (.ok (filterFiles suffix (ts.map RTree.item)), [Req.get url])

/-- `search_files_by_suffix_recursive`. -/
def search_files_by_suffix_recursive (st : SPState) (r : Remote)
    (suffix folder_path : String) : Except Err (List ItemInfo) × List Req :=
  if !truthy st.drive_id then (.error .driveNotSet, [])
  else
    let suffix := normalizeSuffix suffix
    let url := _get_drive_children_url st folder_path
    match r.getTree url with
    | .error s => (.error (.httpError s), [Req.get url])
    | .ok ts =>
      let w := searchFilesWalk st suffix ts folder_path
      (.ok w.1, Req.get url :: w.2)

/-- `search_folders_by_suffix`. -/
def search_folders_by_suffix (st : SPState) (r : Remote)
    (suffix folder_path : String) : Except Err (List ItemInfo) × List Req :=
  if !truthy st.drive_id then (.error .driveNotSet, [])
  else
    let suffix := normalizeSuffix suffix
    let url := _get_drive_children_url st folder_path
    match r.getTree url with
    | .error s => (.error (.httpError s), [Req.get url])
    | .ok ts => (.ok (filterFolders suffix (ts.map RTree.item)), [Req.get url])

/-- `search_folders_by_suffix_recursive`. -/
def search_folders_by_suffix_recursive (st : SPState) (r : Remote)
    (suffix folder_path : String) : Except Err (List ItemInfo) × List Req :=
  if !truthy st.drive_id then (.error .driveNotSet, [])
  else
    let suffix := normalizeSuffix suffix
    let url := _get_drive_children_url st folder_path
    match r.getTree url with
    | .error s => (.error (.httpError s), [Req.get url])
    | .ok ts =>
      let w := searchFoldersWalk st suffix ts folder_path
      (.ok w.1, Req.get url :: w.2)

/-- The first-match loop of `get_drive_id` over the drives listing. -/
def findDrive (drive_name : String) : List DriveRec → Option String
  | [] => none
  | d :: ds => if d.name = drive_name then some d.id else findDrive drive_name ds

/-- `get_drive_id`: requires the site id; returns the id of the first
drive whose name matches exactly, else the first listed drive, and
fails only on an empty listing.  Returns the updated state next to the
returned id (the source stores the id on `self`). -/
def get_drive_id (st : SPState) (r : Remote) (drive_name : String) :
    Except Err (SPState × String) × List Req :=
  if !truthy st.site_id then (.error .siteNotSet, [])
  else
    let url := _get_drives_url st
    match r.getDrives url with
    | .error s => (.error (.httpError s), [Req.get url])
    | .ok drives =>
      match findDrive drive_name drives with
      | some did => (.ok ({ st with drive_id := some did }, did), [Req.get url])
      | none =>
        match drives with
        | d :: _ => (.ok ({ st with drive_id := some d.id }, d.id), [Req.get url])
        | [] => (.error (.noDrives drive_name), [Req.get url])

/-- `_get_item_id_by_path`: one metadata request; 404 becomes the
item-not-found error, any other failure status its own error, and a
missing or falsy id field the retrieval error. -/
def _get_item_id_by_path (st : SPState) (r : Remote) (item_path : String) :
    Except Err String × List Req :=
  let url := _get_drive_item_url st (quote item_path)
  match r.getItem url with
  | .error s =>
    (if s = 404 then .error (.itemNotFound item_path)
     else .error (.getItemIdError s), [Req.get url])
  | .ok it =>
    (if it.id = "" then .error (.retrieveIdError item_path) else .ok it.id,
     [Req.get url])

/-- `move_item`: drive precondition, two path-to-id resolutions (source
then destination), then one PATCH reparenting the source id under the
destination id. -/
def move_item (st : SPState) (r : Remote)
    (item_path destination_folder_path : String) : Except Err Bool × List Req :=
  if !truthy st.drive_id then (.error .driveNotSet, [])
  else
    let r1 := _get_item_id_by_path st r item_path
    match r1.1 with
    | .error e => (.error e, r1.2)
    | .ok item_id =>
      let r2 := _get_item_id_by_path st r destination_folder_path
      match r2.1 with
      | .error e => (.error e, r1.2 ++ r2.2)
      | .ok destination_folder_id =>
        let url := GRAPH_API_BASE ++ "/sites/" ++ optStr st.site_id ++
          "/drives/" ++ optStr st.drive_id ++ "/items/" ++ item_id
        match r.patchItem url destination_folder_id with
        | .error s =>
          (.error (.httpError s), r1.2 ++ r2.2 ++ [Req.patch url destination_folder_id])
        | .ok _ => (.ok true, r1.2 ++ r2.2 ++ [Req.patch url destination_folder_id])

/-- `delete_item`: drive precondition, then one DELETE at the item URL;
any failure status (404 included) is raised, success returns `True`. -/
def delete_item (st : SPState) (r : Remote) (item_path : String) :
    Except Err Bool × List Req :=
  if !truthy st.drive_id then (.error .driveNotSet, [])
  else
    let url := _get_drive_item_url st (quote item_path)
    match r.deleteAt url with
    | .error s => (.error (.httpError s), [Req.delete url])
    | .ok _ => (.ok true, [Req.delete url])

/-- `upload_file_from_memory`: drive precondition, then one PUT of the
content at the content URL of `sharepoint_path/file_name`. -/
def upload_file_from_memory (st : SPState) (r : Remote)
    (file_content : List Nat) (sharepoint_path file_name : String) :
    Except Err RawItem × List Req :=
  if !truthy st.drive_id then (.error .driveNotSet, [])
  else
    let encoded_path :=
      if sharepoint_path = "" then quote file_name
      else quote (sharepoint_path ++ "/" ++ file_name)
    let url := _get_drive_item_content_url st encoded_path
    match r.putContent url file_content with
    | .error s => (.error (.httpError s), [Req.put url file_content])
    | .ok j => (.ok j, [Req.put url file_content])

/-- `_download_file_internal`: reads the download URL key (a missing key
raises), fetches the content, and either writes it to a truthy local
path or returns it as an in-memory buffer. -/
def _download_file_internal (r : Remote) (_file_path : String)
    (local_path : Option String) (item_info : RawItem) :
    Except Err DownloadResult × List Req × List FsEvent :=
  match item_info.downloadUrl with
  | none => (.error (.keyError "@microsoft.graph.downloadUrl"), [], [])
  | some durl =>
    match r.fetch durl with
    | .error s => (.error (.httpError s), [Req.get durl], [])
    | .ok content =>
      if truthy local_path then
        (.ok (.savedTo ((local_path).getD "")), [Req.get durl],
         [FsEvent.write ((local_path).getD "") content])
      else (.ok (.memory content), [Req.get durl], [])

/-- The inner closure `download_folder_recursive` of
`_download_folder_internal`, over the already-fetched child trees of
the current folder: a file-marked child with a truthy download URL is
fetched and written under the mirrored local path (one without is
skipped); a folder-marked child gets its local directory created and is
descended into after its own children request. -/
def walkNodes (st : SPState) (r : Remote) :
    List RTree → String → String → Except Err Unit × List Req × List FsEvent
  | [], _, _ => (.ok (), [], [])
  | RTree.node it cs :: rest, sharepoint_path, local_path =>
    if it.hasFile then
      match it.downloadUrl with
      | none => walkNodes st r rest sharepoint_path local_path
      | some durl =>
        if durl = "" then walkNodes st r rest sharepoint_path local_path
        else
          match r.fetch durl with
          | .error s => (.error (.httpError s), [Req.get durl], [])
          | .ok content =>
            let rst := walkNodes st r rest sharepoint_path local_path
            (rst.1, Req.get durl :: rst.2.1,
             FsEvent.write (joinPath local_path it.name) content :: rst.2.2)
    else if it.hasFolder then
      let local_subfolder := joinPath local_path it.name
      let new_sharepoint_path := childJoin sharepoint_path it.name
      let curl := _get_drive_children_url st new_sharepoint_path
      let sub := walkNodes st r cs new_sharepoint_path local_subfolder
      match sub.1 with
      | .error e =>
        (.error e, Req.get curl :: sub.2.1, FsEvent.mkdir local_subfolder :: sub.2.2)
      | .ok _ =>
        let rst := walkNodes st r rest sharepoint_path local_path
        (rst.1, Req.get curl :: (sub.2.1 ++ rst.2.1),
         FsEvent.mkdir local_subfolder :: (sub.2.2 ++ rst.2.2))
    else walkNodes st r rest sharepoint_path local_path

/-- `_download_folder_internal`: derives the default local directory
from the last path segment, creates it, and runs the recursive walk
after the children request for the folder itself. -/
def _download_folder_internal (st : SPState) (r : Remote)
    (folder_path : String) (local_directory : Option String) :
    Except Err DownloadResult × List Req × List FsEvent :=
  let folder_name := (pySplit (Char.ofNat 47) folder_path).getLastD ""
  let localDir :=
    match local_directory with
    | none => folder_name
    | some l => l
  let url := _get_drive_children_url st folder_path
  match r.getTree url with
  | .error s => (.error (.httpError s), [Req.get url], [FsEvent.mkdir localDir])
  | .ok ts =>
    let w := walkNodes st r ts folder_path localDir
    match w.1 with
    | .error e => (.error e, Req.get url :: w.2.1, FsEvent.mkdir localDir :: w.2.2)
    | .ok _ =>
      (.ok (.savedTo localDir), Req.get url :: w.2.1, FsEvent.mkdir localDir :: w.2.2)

/-- `download_item`: drive precondition, one metadata request, then
dispatch on the file/folder markers; metadata with neither marker
raises the unknown-item-type error. -/
def download_item (st : SPState) (r : Remote)
    (item_path : String) (local_path : Option String) :
    Except Err DownloadResult × List Req × List FsEvent :=
  if !truthy st.drive_id then (.error .driveNotSet, [], [])
  else
    let url := _get_drive_item_url st (quote item_path)
    match r.getItem url with
    | .error s => (.error (.httpError s), [Req.get url], [])
    | .ok item_info =>
      if item_info.hasFile then
        let t := _download_file_internal r item_path local_path item_info
        (t.1, Req.get url :: t.2.1, t.2.2)
      else if item_info.hasFolder then
        let t := _download_folder_internal st r item_path local_path
        (t.1, Req.get url :: t.2.1, t.2.2)
      else (.error (.unknownItemType item_path), [Req.get url], [])

/-- Deprecated wrapper `download_file`, delegating to `download_item`. -/
def download_file (st : SPState) (r : Remote)
    (file_path : String) (local_path : Option String) :
    Except Err DownloadResult × List Req × List FsEvent :=
  download_item st r file_path local_path

/-- Deprecated wrapper `download_folder`, delegating to `download_item`. -/
def download_folder (st : SPState) (r : Remote)
    (folder_path : String) (local_directory : Option String) :
    Except Err DownloadResult × List Req × List FsEvent :=
  download_item st r folder_path local_directory

/-- Deprecated wrapper `delete_file`, delegating to `delete_item`. -/
def delete_file (st : SPState) (r : Remote) (file_path : String) :
    Except Err Bool × List Req :=
  delete_item st r file_path

/-- Deprecated wrapper `delete_folder`, delegating to `delete_item`. -/
def delete_folder (st : SPState) (r : Remote) (folder_path : String) :
    Except Err Bool × List Req :=
  delete_item st r folder_path

/-- Deprecated wrapper `move_file`, delegating to `move_item`. -/
def move_file (st : SPState) (r : Remote)
    (file_path destination_folder_path : String) : Except Err Bool × List Req :=
  move_item st r file_path destination_folder_path

/-- Deprecated wrapper `move_folder`, delegating to `move_item`. -/
def move_folder (st : SPState) (r : Remote)
    (folder_path destination_parent_folder_path : String) :
    Except Err Bool × List Req :=
  move_item st r folder_path destination_parent_folder_path

/-! ### Concrete fixtures used by witnesses and counterexamples -/

/-- A fully resolved session (token, site and drive ids set). -/
def stReady : SPState :=
  { access_token := some "tok", site_id := some "S", drive_id := some "D" }

/-- A session before any resolution step (everything unset). -/
def stFresh : SPState := {}

/-- A remote whose every endpoint fails with status 0; fixtures
override the endpoints they exercise. -/
def remBase : Remote :=
  { getItem := fun _ => .error 0
    getTree := fun _ => .error 0
    fetch := fun _ => .error 0
    getDrives := fun _ => .error 0
    deleteAt := fun _ => .error 0
    patchItem := fun _ _ => .error 0
    putContent := fun _ _ => .error 0 }

/-- Folder record `a.gdb` sitting directly under the drive root. -/
def aGdb : RawItem :=
  { name := "a.gdb", hasFolder := true, parentPath := "/drives/D/root:", id := "ida" }

/-- Folder record `b.gdb` sitting inside `a.gdb`. -/
def bGdb : RawItem :=
  { name := "b.gdb", hasFolder := true, parentPath := "/drives/D/root:/a.gdb", id := "idb" }

/-- The remote tree `root/a.gdb/b.gdb` of the recursive-search claim. -/
def gdbTree : List RTree := [RTree.node aGdb [RTree.node bGdb []]]

/-- A remote serving the `root/a.gdb/b.gdb` tree for every children
request. -/
def remGdb : Remote := { remBase with getTree := fun _ => .ok gdbTree }

/-- A remote that resolves every metadata request to an item with id
`i` and accepts every PATCH. -/
def remMove : Remote :=
  { remBase with
    getItem := fun _ => .ok { id := "i" }
    patchItem := fun _ _ => .ok () }

/-- A remote whose drives listing contains only `Documenten` / `d1`. -/
def remDrives : Remote :=
  { remBase with
    getDrives := fun _ => .ok [{ name := "Documenten", id := "d1" }] }

/-- A remote whose metadata responses carry neither a file nor a
folder marker. -/
def remNoMarker : Remote :=
  { remBase with getItem := fun _ => .ok { name := "mystery" } }

/-- A file record and a folder record in one listing. -/
def csvFile : RawItem :=
  { name := "data.csv", hasFile := true, parentPath := "/drives/D/root:", id := "idf" }

/-- The folder sibling of `csvFile`. -/
def csvFolder : RawItem :=
  { name := "archive.csv", hasFolder := true, parentPath := "/drives/D/root:", id := "idd" }

/-- A remote listing one file and one folder at every path. -/
def remMixed : Remote :=
  { remBase with
    getTree := fun _ => .ok [RTree.node csvFile [], RTree.node csvFolder []] }

/-- A remote that reports every DELETE target absent. -/
def remGone : Remote := { remBase with deleteAt := fun _ => .error 404 }

/-! ### Helper lemmas -/

/-- The empty string is a suffix of every name (Python
`s.endswith("")` is always `True`). -/
theorem pyEndsWith_empty (s : String) : pyEndsWith s "" = true := by
  simp [pyEndsWith, List.isSuffixOf, List.isPrefixOf]

/-- The file-filter loop keeps exactly the file-marked records whose
name ends with the suffix, in listing order. -/
theorem filterFiles_eq (suffix : String) (items : List RawItem) :
    filterFiles suffix items =
      (items.filter fun it => it.hasFile && pyEndsWith it.name suffix).map
        _create_item_info_from_api_response := by
  induction items with
  | nil => rfl
  | cons it rest ih =>
    by_cases h : (it.hasFile && pyEndsWith it.name suffix) = true
    · simp [filterFiles, h, ih]
    · simp [filterFiles, h, ih]

/-- The folder-filter loop keeps exactly the folder-marked records
whose name ends with the suffix, in listing order. -/
theorem filterFolders_eq (suffix : String) (items : List RawItem) :
    filterFolders suffix items =
      (items.filter fun it => it.hasFolder && pyEndsWith it.name suffix).map
        _create_item_info_from_api_response := by
  induction items with
  | nil => rfl
  | cons it rest ih =>
    by_cases h : (it.hasFolder && pyEndsWith it.name suffix) = true
    · simp [filterFolders, h, ih]
    · simp [filterFolders, h, ih]

/-- Normalization maps a dotless non-empty suffix and its dotted form
to the same suffix. -/
theorem normalizeSuffix_dot (s : String) (h1 : s ≠ "")
    (h2 : pyStartsWith s "." = false) :
    normalizeSuffix ("." ++ s) = normalizeSuffix s := by
  have hne : ("." ++ s) ≠ "" := by
    intro h
    have := congrArg String.data h
    simp [String.data_append] at this
  have hsw : pyStartsWith ("." ++ s) "." = true := by
    simp [pyStartsWith, String.data_append, List.isPrefixOf]
  rw [normalizeSuffix, normalizeSuffix]
  rw [if_neg hne, if_pos hsw, if_neg h1, if_neg (by simp [h2])]

/-- A path-to-id resolution always issues exactly the one metadata GET
for the addressed path, whatever its outcome. -/
theorem get_item_id_log (st : SPState) (r : Remote) (p : String) :
    (_get_item_id_by_path st r p).2 =
      [Req.get (_get_drive_item_url st (quote p))] := by
  rw [_get_item_id_by_path]
  cases r.getItem (_get_drive_item_url st (quote p)) <;> rfl

/-- The drive-scanning loop returns the id of the first listing entry
with an exactly (case-sensitively) matching name. -/
theorem findDrive_eq_find (n : String) (ds : List DriveRec) :
    findDrive n ds = (ds.find? fun d => d.name == n).map DriveRec.id := by
  induction ds with
  | nil => rfl
  | cons d rest ih =>
    by_cases h : d.name = n
    · simp [findDrive, List.find?, h]
    · have hb : (d.name == n) = false := by simp [h]
      simp [findDrive, List.find?, h, hb, ih]

/-! ### Claims -/

/-- C1: the recursive folder search descends into every subfolder
regardless of whether that subfolder itself matched the suffix: a
matching folder is appended to the results and its children are still
walked, and on the remote tree root/a.gdb/b.gdb a recursive search for
.gdb from the root returns both a.gdb and a.gdb/b.gdb (logical paths
/a.gdb and /a.gdb/b.gdb). -/
theorem claim_C1 :
    (∀ (st : SPState) (suffix : String) (it : RawItem) (cs rest : List RTree)
      (current_path : String),
      it.hasFolder = true → pyEndsWith it.name suffix = true →
      searchFoldersWalk st suffix (RTree.node it cs :: rest) current_path =
        (_create_item_info_from_api_response it ::
          ((searchFoldersWalk st suffix cs (childJoin current_path it.name)).1 ++
            (searchFoldersWalk st suffix rest current_path).1),
         Req.get (_get_drive_children_url st (childJoin current_path it.name)) ::
          ((searchFoldersWalk st suffix cs (childJoin current_path it.name)).2 ++
            (searchFoldersWalk st suffix rest current_path).2))) ∧
    (search_folders_by_suffix_recursive stReady remGdb ".gdb" "").1 =
      .ok [_create_item_info_from_api_response aGdb,
           _create_item_info_from_api_response bGdb] ∧
    ((search_folders_by_suffix_recursive stReady remGdb ".gdb" "").1.map
        (List.map ItemInfo.path)) = .ok ["/a.gdb", "/a.gdb/b.gdb"] := by
  refine ⟨?_, ?_, ?_⟩
  · intro st suffix it cs rest current_path hfold hmatch
    simp [searchFoldersWalk, hfold, hmatch]
  · simp [search_folders_by_suffix_recursive, searchFoldersWalk, stReady, remGdb, gdbTree]
    decide
  · simp [search_folders_by_suffix_recursive, searchFoldersWalk, stReady, remGdb, gdbTree]
    decide

/-- Witness for C1: the descent equation instantiated at the concrete
a.gdb node, whose own name matches the suffix and whose child list is
still walked. -/
theorem claim_C1_witness :
    aGdb.hasFolder = true ∧
    pyEndsWith aGdb.name ".gdb" = true ∧
    (searchFoldersWalk stReady ".gdb" [RTree.node aGdb [RTree.node bGdb []]] "").1 =
      _create_item_info_from_api_response aGdb ::
        ((searchFoldersWalk stReady ".gdb" [RTree.node bGdb []] (childJoin "" aGdb.name)).1 ++
          (searchFoldersWalk stReady ".gdb" [] "").1) := by
  refine ⟨by decide, by decide, ?_⟩
  have h := claim_C1.1 stReady ".gdb" aGdb [RTree.node bGdb []] [] "" (by decide) (by decide)
  rw [h]

/-- C2: move_item performs exactly two path-to-id resolution requests
(source path, then destination folder path) before the mutating PATCH;
when either resolution fails the operation stops with that error and
the log holds only the resolution GETs, and a PATCH request appears in
the log only when both resolutions succeeded. -/
theorem claim_C2 (st : SPState) (r : Remote)
    (item_path destination_folder_path : String)
    (hd : truthy st.drive_id = true) :
    (∀ e, (_get_item_id_by_path st r item_path).1 = .error e →
      move_item st r item_path destination_folder_path =
        (.error e, [Req.get (_get_drive_item_url st (quote item_path))])) ∧
    (∀ i e, (_get_item_id_by_path st r item_path).1 = .ok i →
      (_get_item_id_by_path st r destination_folder_path).1 = .error e →
      move_item st r item_path destination_folder_path =
        (.error e, [Req.get (_get_drive_item_url st (quote item_path)),
                    Req.get (_get_drive_item_url st (quote destination_folder_path))])) ∧
    (∀ i j, (_get_item_id_by_path st r item_path).1 = .ok i →
      (_get_item_id_by_path st r destination_folder_path).1 = .ok j →
      (move_item st r item_path destination_folder_path).2 =
        [Req.get (_get_drive_item_url st (quote item_path)),
         Req.get (_get_drive_item_url st (quote destination_folder_path)),
         Req.patch (GRAPH_API_BASE ++ "/sites/" ++ optStr st.site_id ++
           "/drives/" ++ optStr st.drive_id ++ "/items/" ++ i) j]) ∧
    (∀ url pid,
      Req.patch url pid ∈ (move_item st r item_path destination_folder_path).2 →
      ∃ i j, (_get_item_id_by_path st r item_path).1 = .ok i ∧
        (_get_item_id_by_path st r destination_folder_path).1 = .ok j) := by
  refine ⟨?_, ?_, ?_, ?_⟩
  · intro e h
    simp [move_item, hd, h, get_item_id_log]
  · intro i e h1 h2
    simp [move_item, hd, h1, h2, get_item_id_log]
  · intro i j h1 h2
    rcases hp : r.patchItem (GRAPH_API_BASE ++ "/sites/" ++ optStr st.site_id ++
        "/drives/" ++ optStr st.drive_id ++ "/items/" ++ i) j with s | u
    · simp [move_item, hd, h1, h2, hp, get_item_id_log]
    · simp [move_item, hd, h1, h2, hp, get_item_id_log]
  · intro url pid hmem
    rcases h1 : (_get_item_id_by_path st r item_path).1 with e | i
    · rw [move_item] at hmem
      simp [hd, h1, get_item_id_log] at hmem
    · rcases h2 : (_get_item_id_by_path st r destination_folder_path).1 with e | j
      · rw [move_item] at hmem
        simp [hd, h1, h2, get_item_id_log] at hmem
      · exact ⟨i, j, rfl, rfl⟩

/-- Witness for C2: with a remote resolving both paths, the request
log of a move is the two resolution GETs followed by the PATCH. -/
theorem claim_C2_witness :
    (_get_item_id_by_path stReady remMove "a").1 = .ok "i" ∧
    (_get_item_id_by_path stReady remMove "b").1 = .ok "i" ∧
    (move_item stReady remMove "a" "b").2 =
      [Req.get (_get_drive_item_url stReady (quote "a")),
       Req.get (_get_drive_item_url stReady (quote "b")),
       Req.patch (GRAPH_API_BASE ++ "/sites/" ++ optStr stReady.site_id ++
         "/drives/" ++ optStr stReady.drive_id ++ "/items/" ++ "i") "i"] :=
  ⟨rfl, rfl, (claim_C2 stReady remMove "a" "b" (by decide)).2.2.1 "i" "i" rfl rfl⟩

/-- C3: with the drive id unset, every item-level operation (download,
upload from memory, the four suffix searches, delete and move) fails
immediately with the drive-not-set precondition error and issues zero
network requests. -/
theorem claim_C3 (st : SPState) (r : Remote) (h : truthy st.drive_id = false) :
    (∀ p lp, download_item st r p lp = (.error .driveNotSet, [], [])) ∧
    (∀ content sp fn,
      upload_file_from_memory st r content sp fn = (.error .driveNotSet, [])) ∧
    (∀ suf fp, search_files_by_suffix st r suf fp = (.error .driveNotSet, [])) ∧
    (∀ suf fp, search_files_by_suffix_recursive st r suf fp = (.error .driveNotSet, [])) ∧
    (∀ suf fp, search_folders_by_suffix st r suf fp = (.error .driveNotSet, [])) ∧
    (∀ suf fp, search_folders_by_suffix_recursive st r suf fp = (.error .driveNotSet, [])) ∧
    (∀ p, delete_item st r p = (.error .driveNotSet, [])) ∧
    (∀ p d, move_item st r p d = (.error .driveNotSet, [])) := by
  refine ⟨?_, ?_, ?_, ?_, ?_, ?_, ?_, ?_⟩ <;> intros <;>
    simp [download_item, upload_file_from_memory, search_files_by_suffix,
      search_files_by_suffix_recursive, search_folders_by_suffix,
      search_folders_by_suffix_recursive, delete_item, move_item, h]

/-- Witness for C3: a fresh session rejects representative item-level
operations with the precondition error and an empty request log. -/
theorem claim_C3_witness :
    truthy stFresh.drive_id = false ∧
    delete_item stFresh remBase "f.txt" = (.error .driveNotSet, []) ∧
    search_files_by_suffix stFresh remBase ".csv" "" = (.error .driveNotSet, []) ∧
    move_item stFresh remBase "a" "b" = (.error .driveNotSet, []) := by
  refine ⟨by decide, ?_, ?_, ?_⟩
  · exact (claim_C3 stFresh remBase (by decide)).2.2.2.2.2.2.1 "f.txt"
  · exact (claim_C3 stFresh remBase (by decide)).2.2.1 ".csv" ""
  · exact (claim_C3 stFresh remBase (by decide)).2.2.2.2.2.2.2 "a" "b"

/-- C4: get_drive_id returns the id of the first listed drive whose
name equals the requested name exactly and case-sensitively; when no
name matches it falls back to the id of the first listed drive; and it
fails with the no-drives error exactly when the listing is empty. -/
theorem claim_C4 (st : SPState) (r : Remote) (drive_name : String)
    (drives : List DriveRec)
    (hs : truthy st.site_id = true)
    (hr : r.getDrives (_get_drives_url st) = .ok drives) :
    (findDrive drive_name drives =
      (drives.find? fun d => d.name == drive_name).map DriveRec.id) ∧
    (∀ i, findDrive drive_name drives = some i →
      (get_drive_id st r drive_name).1 = .ok ({ st with drive_id := some i }, i)) ∧
    (∀ d ds, drives = d :: ds → findDrive drive_name drives = none →
      (get_drive_id st r drive_name).1 = .ok ({ st with drive_id := some d.id }, d.id)) ∧
    (drives = [] → (get_drive_id st r drive_name).1 = .error (.noDrives drive_name)) := by
  refine ⟨findDrive_eq_find drive_name drives, ?_, ?_, ?_⟩
  · intro i h
    simp [get_drive_id, hs, hr, h]
  · intro d ds hcons h
    subst hcons
    simp [get_drive_id, hs, hr, h]
  · intro h
    subst h
    simp [get_drive_id, hs, hr, findDrive]

/-- Witness for C4: requesting NonExistent against a listing holding
only Documenten with id d1 falls back to d1, as the claim states. -/
theorem claim_C4_witness :
    findDrive "NonExistent" [{ name := "Documenten", id := "d1" }] = none ∧
    (get_drive_id stReady remDrives "NonExistent").1 =
      .ok ({ stReady with drive_id := some "d1" }, "d1") := by
  refine ⟨by decide, ?_⟩
  exact (claim_C4 stReady remDrives "NonExistent"
    [{ name := "Documenten", id := "d1" }] (by decide) rfl).2.2.1
    { name := "Documenten", id := "d1" } [] rfl (by decide)

/-- C5: download_item dispatches on the type marker of the fetched
metadata: a file marker delegates to the file download, else a folder
marker delegates to the recursive folder download, and metadata with
neither marker fails with the unknown-item-type error after only the
single metadata request, with no further requests and no local
filesystem effects. -/
theorem claim_C5 (st : SPState) (r : Remote) (item_path : String)
    (local_path : Option String) (item_info : RawItem)
    (hd : truthy st.drive_id = true)
    (hm : r.getItem (_get_drive_item_url st (quote item_path)) = .ok item_info) :
    (item_info.hasFile = true →
      download_item st r item_path local_path =
        ((_download_file_internal r item_path local_path item_info).1,
         Req.get (_get_drive_item_url st (quote item_path)) ::
           (_download_file_internal r item_path local_path item_info).2.1,
         (_download_file_internal r item_path local_path item_info).2.2)) ∧
    (item_info.hasFile = false → item_info.hasFolder = true →
      download_item st r item_path local_path =
        ((_download_folder_internal st r item_path local_path).1,
         Req.get (_get_drive_item_url st (quote item_path)) ::
           (_download_folder_internal st r item_path local_path).2.1,
         (_download_folder_internal st r item_path local_path).2.2)) ∧
    (item_info.hasFile = false → item_info.hasFolder = false →
      download_item st r item_path local_path =
        (.error (.unknownItemType item_path),
         [Req.get (_get_drive_item_url st (quote item_path))], [])) := by
  refine ⟨?_, ?_, ?_⟩
  · intro hf
    simp [download_item, hd, hm, hf]
  · intro hf hfo
    simp [download_item, hd, hm, hf, hfo]
  · intro hf hfo
    simp [download_item, hd, hm, hf, hfo]

/-- Witness for C5: downloading a path whose metadata carries neither
marker fails with the unknown-item-type error after one request. -/
theorem claim_C5_witness :
    (remNoMarker.getItem (_get_drive_item_url stReady (quote "mystery")) =
      .ok { name := "mystery" }) ∧
    download_item stReady remNoMarker "mystery" none =
      (.error (.unknownItemType "mystery"),
       [Req.get (_get_drive_item_url stReady (quote "mystery"))], []) :=
  ⟨rfl, (claim_C5 stReady remNoMarker "mystery" none { name := "mystery" }
    (by decide) rfl).2.2 rfl rfl⟩

/-- C6: on a listing, search_files_by_suffix returns exactly the
file-marked entries whose name ends with the normalized suffix and
search_folders_by_suffix exactly the folder-marked ones, in listing
order; when the two markers are mutually exclusive, every entry of
either result stems from a record that does not carry the other
marker. -/
theorem claim_C6 (st : SPState) (r : Remote) (suffix folder_path : String)
    (ts : List RTree)
    (hd : truthy st.drive_id = true)
    (hr : r.getTree (_get_drive_children_url st folder_path) = .ok ts) :
    ((search_files_by_suffix st r suffix folder_path).1 =
      .ok (((ts.map RTree.item).filter fun it =>
          it.hasFile && pyEndsWith it.name (normalizeSuffix suffix)).map
        _create_item_info_from_api_response)) ∧
    ((search_folders_by_suffix st r suffix folder_path).1 =
      .ok (((ts.map RTree.item).filter fun it =>
          it.hasFolder && pyEndsWith it.name (normalizeSuffix suffix)).map
        _create_item_info_from_api_response)) ∧
    ((∀ it ∈ ts.map RTree.item, ¬(it.hasFile = true ∧ it.hasFolder = true)) →
      ∀ info ∈ filterFiles (normalizeSuffix suffix) (ts.map RTree.item),
        ∃ it, it ∈ ts.map RTree.item ∧ it.hasFile = true ∧ it.hasFolder = false ∧
          pyEndsWith it.name (normalizeSuffix suffix) = true ∧
          info = _create_item_info_from_api_response it) ∧
    ((∀ it ∈ ts.map RTree.item, ¬(it.hasFile = true ∧ it.hasFolder = true)) →
      ∀ info ∈ filterFolders (normalizeSuffix suffix) (ts.map RTree.item),
        ∃ it, it ∈ ts.map RTree.item ∧ it.hasFolder = true ∧ it.hasFile = false ∧
          pyEndsWith it.name (normalizeSuffix suffix) = true ∧
          info = _create_item_info_from_api_response it) := by
  refine ⟨?_, ?_, ?_, ?_⟩
  · simp [search_files_by_suffix, hd, hr, filterFiles_eq]
  · simp [search_folders_by_suffix, hd, hr, filterFolders_eq]
  · intro hexcl info hmem
    rw [filterFiles_eq] at hmem
    rcases List.mem_map.mp hmem with ⟨it, hit, hinfo⟩
    rcases List.mem_filter.mp hit with ⟨hin, hcond⟩
    rcases Bool.and_eq_true_iff.mp hcond with ⟨hfile, hsuf⟩
    have hnofold : it.hasFolder = false := by
      rcases Bool.eq_false_or_eq_true it.hasFolder with h | h
      · exact absurd ⟨hfile, h⟩ (hexcl it hin)
      · exact h
    exact ⟨it, hin, hfile, hnofold, hsuf, hinfo.symm⟩
  · intro hexcl info hmem
    rw [filterFolders_eq] at hmem
    rcases List.mem_map.mp hmem with ⟨it, hit, hinfo⟩
    rcases List.mem_filter.mp hit with ⟨hin, hcond⟩
    rcases Bool.and_eq_true_iff.mp hcond with ⟨hfold, hsuf⟩
    have hnofile : it.hasFile = false := by
      rcases Bool.eq_false_or_eq_true it.hasFile with h | h
      · exact absurd ⟨h, hfold⟩ (hexcl it hin)
      · exact h
    exact ⟨it, hin, hfold, hnofile, hsuf, hinfo.symm⟩

/-- Witness for C6: on a listing with one matching file and one
matching folder, the file search returns only the file and the folder
search only the folder. -/
theorem claim_C6_witness :
    (search_files_by_suffix stReady remMixed ".csv" "").1 =
      .ok [_create_item_info_from_api_response csvFile] ∧
    (search_folders_by_suffix stReady remMixed ".csv" "").1 =
      .ok [_create_item_info_from_api_response csvFolder] := by
  have h := claim_C6 stReady remMixed ".csv" ""
    [RTree.node csvFile [], RTree.node csvFolder []] (by decide) rfl
  exact ⟨h.1.trans (by decide), h.2.1.trans (by decide)⟩

/-- C7: for a non-empty suffix without a leading dot, each of the four
suffix-search operations behaves identically to the same call with a
dot prepended to the suffix, and the empty suffix matches every name
(the file search with the empty suffix returns every file-marked
entry). -/
theorem claim_C7 (st : SPState) (r : Remote) (folder_path s : String)
    (h1 : s ≠ "") (h2 : pyStartsWith s "." = false) :
    (search_files_by_suffix st r s folder_path =
      search_files_by_suffix st r ("." ++ s) folder_path) ∧
    (search_files_by_suffix_recursive st r s folder_path =
      search_files_by_suffix_recursive st r ("." ++ s) folder_path) ∧
    (search_folders_by_suffix st r s folder_path =
      search_folders_by_suffix st r ("." ++ s) folder_path) ∧
    (search_folders_by_suffix_recursive st r s folder_path =
      search_folders_by_suffix_recursive st r ("." ++ s) folder_path) ∧
    (∀ ts, truthy st.drive_id = true →
      r.getTree (_get_drive_children_url st folder_path) = .ok ts →
      (search_files_by_suffix st r "" folder_path).1 =
        .ok (((ts.map RTree.item).filter fun it => it.hasFile).map
          _create_item_info_from_api_response)) := by
  have hn := normalizeSuffix_dot s h1 h2
  refine ⟨?_, ?_, ?_, ?_, ?_⟩
  · rw [search_files_by_suffix, search_files_by_suffix, hn]
  · rw [search_files_by_suffix_recursive, search_files_by_suffix_recursive, hn]
  · rw [search_folders_by_suffix, search_folders_by_suffix, hn]
  · rw [search_folders_by_suffix_recursive, search_folders_by_suffix_recursive, hn]
  · intro ts hd hr
    have : normalizeSuffix "" = "" := rfl
    simp [search_files_by_suffix, hd, hr, this, filterFiles_eq, pyEndsWith_empty]

/-- Witness for C7: searching csv equals searching .csv, recursively
searching gdb equals searching .gdb, and the empty suffix returns the
lone file of the mixed listing. -/
theorem claim_C7_witness :
    ("csv" ≠ "" ∧ pyStartsWith "csv" "." = false) ∧
    search_files_by_suffix stReady remMixed "csv" "" =
      search_files_by_suffix stReady remMixed ".csv" "" ∧
    search_folders_by_suffix_recursive stReady remGdb "gdb" "" =
      search_folders_by_suffix_recursive stReady remGdb ".gdb" "" ∧
    (search_files_by_suffix stReady remMixed "" "").1 =
      .ok [_create_item_info_from_api_response csvFile] := by
  have h := claim_C7 stReady remMixed "" "csv" (by decide) (by decide)
  have hg := claim_C7 stReady remGdb "" "gdb" (by decide) (by decide)
  refine ⟨⟨by decide, by decide⟩, h.1, hg.2.2.2.1, ?_⟩
  exact (h.2.2.2.2 [RTree.node csvFile [], RTree.node csvFolder []]
    (by decide) rfl).trans (by decide)

/-- C8 counterexample: with site and drive ids resolved, the item-URL
builder applied to the empty encoded path yields the drive-root URL
with :/ appended, not the bare drive-root URL, refuting the claim as
stated. -/
theorem claim_C8_counterexample :
    _get_drive_item_url stReady "" ≠ _get_drive_root_url stReady := by
  decide

/-- C8 (amended): the item-URL builder always appends :/ followed by
the encoded path to the drive-root URL, also when the supplied path is
empty, so the empty path never yields the bare root URL; the empty-path
special case belongs to the children-URL builder, which addresses the
bare root children for an empty path and the item URL plus :/children
otherwise. -/
theorem claim_C8_amended (st : SPState) (encoded_path : String) :
    (_get_drive_item_url st encoded_path =
      _get_drive_root_url st ++ ":/" ++ encoded_path) ∧
    _get_drive_item_url st "" ≠ _get_drive_root_url st ∧
    _get_drive_children_url st "" = _get_drive_root_url st ++ "/children" ∧
    (∀ p, p ≠ "" → _get_drive_children_url st p =
      _get_drive_item_url st (quote p) ++ ":/children") := by
  refine ⟨rfl, ?_, rfl, ?_⟩
  · intro h
    have hd := congrArg String.data h
    simp [_get_drive_item_url, String.data_append] at hd
  · intro p hp
    simp [_get_drive_children_url, hp]

/-- Witness for C8 (amended): the children URL of a non-empty folder
path is the item URL of its encoding with :/children appended. -/
theorem claim_C8_amended_witness :
    ("f" ≠ "" ∧
      _get_drive_children_url stReady "f" =
        _get_drive_item_url stReady (quote "f") ++ ":/children") :=
  ⟨by decide, (claim_C8_amended stReady "").2.2.2 "f" (by decide)⟩

/-- C9: delete_item is not idempotent: it returns True exactly when
the remote DELETE succeeds, and a remote not-found status makes it
fail with the corresponding error instead of succeeding. -/
theorem claim_C9 (st : SPState) (r : Remote) (item_path : String)
    (hd : truthy st.drive_id = true) :
    ((delete_item st r item_path).1 = .ok true ↔
      r.deleteAt (_get_drive_item_url st (quote item_path)) = .ok ()) ∧
    (r.deleteAt (_get_drive_item_url st (quote item_path)) = .error 404 →
      delete_item st r item_path =
        (.error (.httpError 404),
         [Req.delete (_get_drive_item_url st (quote item_path))])) := by
  constructor
  · constructor
    · intro h
      rw [delete_item] at h
      simp [hd] at h
      rcases he : r.deleteAt (_get_drive_item_url st (quote item_path)) with s | u
      · simp [he] at h
      · rfl
    · intro h
      simp [delete_item, hd, h]
  · intro h
    simp [delete_item, hd, h]

/-- Witness for C9: deleting an absent path (remote answers 404) fails
with the not-found transport error rather than returning True. -/
theorem claim_C9_witness :
    remGone.deleteAt (_get_drive_item_url stReady (quote "gone.txt")) = .error 404 ∧
    delete_item stReady remGone "gone.txt" =
      (.error (.httpError 404),
       [Req.delete (_get_drive_item_url stReady (quote "gone.txt"))]) :=
  ⟨rfl, (claim_C9 stReady remGone "gone.txt" (by decide)).2 rfl⟩

/-- C10: each deprecated wrapper is extensionally equal to its
replacement on every input: download_file and download_folder equal
download_item, delete_file and delete_folder equal delete_item, and
move_file and move_folder equal move_item. -/
theorem claim_C10 (st : SPState) (r : Remote) (p d : String) (lp : Option String) :
    download_file st r p lp = download_item st r p lp ∧
    download_folder st r p lp = download_item st r p lp ∧
    delete_file st r p = delete_item st r p ∧
    delete_folder st r p = delete_item st r p ∧
    move_file st r p d = move_item st r p d ∧
    move_folder st r p d = move_item st r p d :=
  ⟨rfl, rfl, rfl, rfl, rfl, rfl⟩

end SPM
